import Mathlib

/-!
Verification of the FlickList incremental activity-sync reconciler
(`resources/lib.bak.trakt-rename/lib/apis/flicklist_api.py`) against its
natural-language specification.

The development shallowly embeds the reconciler `fl_sync_activities`, the
transport `call_flicklist`, the timestamp comparator `_compare`, the
watched/progress index builders (`fl_indicators_tv`, `fl_progress_movies`,
`fl_progress_tv`) and the slug generator `make_fl_slug`.  Collaborator
modules that are not part of the source excerpt (`caches.flicklist_cache`,
`caches.settings_cache`, `modules.settings`, `modules.utils`) are modelled
from the specification; each such definition carries a doc comment starting
with `Modelled from the spec:`.
-/

namespace FL

/-! ## Timestamp parsing and comparison

`_compare(latest, cached)` parses both operands with the fixed format
`%Y-%m-%dT%H:%M:%S.%fZ` via `jsondate_to_datetime` and compares
`int(time.mktime(dt.timetuple()))`, returning `True` on any exception.
`timetuple()` drops the microsecond field, so the comparison is on whole
epoch seconds.  `mktime` interprets the tuple in local time; both operands
go through the same conversion, so we model the conversion as UTC epoch
seconds. -/

/-- Numeric value of an ASCII digit, `none` for any other character. -/
def digitVal (c : Char) : Option Nat :=
  if 48 ≤ c.toNat ∧ c.toNat ≤ 57 then some (c.toNat - 48) else none

/-- Consume exactly four digits (the `%Y` directive matches `\d\d\d\d`). -/
def parse4 (l : List Char) : Option (Nat × List Char) :=
  match l with
  | a :: b :: c :: d :: rest =>
    match digitVal a, digitVal b, digitVal c, digitVal d with
    | some va, some vb, some vc, some vd =>
      some (((va * 10 + vb) * 10 + vc) * 10 + vd, rest)
    | _, _, _, _ => none
  | _ => none

/-- Consume one or two digits.  The numeric directives `%m`, `%d`, `%H`,
`%M`, `%S` each match one or two digits; in this format every such field is
followed by a non-digit literal, so greedy two-digit matching plus a range
check is equivalent to the regex alternation `strptime` compiles. -/
def parse12 (l : List Char) : Option (Nat × List Char) :=
  match l with
  | a :: rest =>
    match digitVal a with
    | none => none
    | some va =>
      match rest with
      | b :: rest2 =>
        match digitVal b with
        | none => some (va, rest)
        | some vb => some (va * 10 + vb, rest2)
      | [] => some (va, [])
  | [] => none

/-- Consume a literal character. -/
def parseLit (c : Char) (l : List Char) : Option (List Char) :=
  match l with
  | a :: rest => if a = c then some rest else none
  | [] => none

/-- Consume one to six digits (the `%f` directive). Returns the digits'
value together with the remaining input. -/
def parseFrac (l : List Char) : Option (Nat × List Char) :=
  match l with
  | a :: rest =>
    match digitVal a with
    | none => none
    | some va =>
      let rec go (fuel : Nat) (acc : Nat) (l : List Char) : Nat × List Char :=
        match fuel, l with
        | Nat.succ f, c :: rest =>
          match digitVal c with
          | some v => go f (acc * 10 + v) rest
          | none => (acc, c :: rest)
        | _, l => (acc, l)
      some (go 5 va rest)
  | [] => none

/-- A parsed `datetime` value (year, month, day, hour, minute, second,
microsecond digits). -/
structure DT where
  year : Nat
  month : Nat
  day : Nat
  hour : Nat
  minute : Nat
  second : Nat
  fracVal : Nat
deriving DecidableEq, Repr

/-- Whether a year is a Gregorian leap year. -/
def isLeap (y : Nat) : Bool := (y % 4 = 0 ∧ y % 100 ≠ 0) ∨ y % 400 = 0

/-- Number of days in a month (used by the `datetime` constructor's
validation, which `strptime` performs after the regex match). -/
def daysInMonth (y m : Nat) : Nat :=
  if m = 2 then (if isLeap y then 29 else 28)
  else if m = 4 ∨ m = 6 ∨ m = 9 ∨ m = 11 then 30
  else 31

/-- Modelled from the spec: `modules.utils.jsondate_to_datetime` (aliased
`js2date`) is not part of the source excerpt.  Per the spec it parses its
operand with the fixed format `%Y-%m-%dT%H:%M:%S.%fZ` and fails (raises)
on any malformed input; the failure is observed through the `try/except`
in `_compare`, modelled here by returning `none`.  Range validation
(month 1-12, valid day of month, hour ≤ 23, minute ≤ 59, second ≤ 59,
year ≥ 1) mirrors `strptime`'s regex plus the `datetime` constructor. -/
def parseJsDate (l : List Char) : Option DT :=
  match parse4 l with
  | none => none
  | some (y, l1) =>
  match parseLit '-' l1 with
  | none => none
  | some l2 =>
  match parse12 l2 with
  | none => none
  | some (mo, l3) =>
  match parseLit '-' l3 with
  | none => none
  | some l4 =>
  match parse12 l4 with
  | none => none
  | some (d, l5) =>
  match parseLit 'T' l5 with
  | none => none
  | some l6 =>
  match parse12 l6 with
  | none => none
  | some (h, l7) =>
  match parseLit ':' l7 with
  | none => none
  | some l8 =>
  match parse12 l8 with
  | none => none
  | some (mi, l9) =>
  match parseLit ':' l9 with
  | none => none
  | some l10 =>
  match parse12 l10 with
  | none => none
  | some (s, l11) =>
  match parseLit '.' l11 with
  | none => none
  | some l12 =>
  match parseFrac l12 with
  | none => none
  | some (fv, l13) =>
  match parseLit 'Z' l13 with
  | none => none
  | some l14 =>
  if l14 = [] ∧ 1 ≤ y ∧ 1 ≤ mo ∧ mo ≤ 12 ∧ 1 ≤ d ∧ d ≤ daysInMonth y mo
      ∧ h ≤ 23 ∧ mi ≤ 59 ∧ s ≤ 59 then
    some ⟨y, mo, d, h, mi, s, fv⟩
  else
    none

/-- Days from 1970-01-01 to the given civil date (Hinnant's algorithm,
specialised to years ≥ 1 so all intermediate quantities are naturals). -/
def daysFromCivil (y m d : Nat) : Int :=
  let yy := if m ≤ 2 then y - 1 else y
  let era := yy / 400
  let yoe := yy % 400
  let mp := (m + 9) % 12
  let doy := (153 * mp + 2) / 5 + (d - 1)
  let doe := yoe * 365 + yoe / 4 - yoe / 100 + doy
  (era * 146097 + doe : Int) - 719468

/-- Epoch seconds of a parsed datetime, as `int(time.mktime(dt.timetuple()))` computes them of a parsed datetime.
`timetuple()` drops the microsecond field, so `fracVal` does not
contribute. -/
def epochSeconds (dt : DT) : Int :=
  daysFromCivil dt.year dt.month dt.day * 86400
    + dt.hour * 3600 + dt.minute * 60 + dt.second

/-- Body of the `try` block of `_compare`: fails when either operand fails
to parse, otherwise yields the strict epoch-second comparison. -/
def tryCompare (latest cached : List Char) : Option Bool :=
  match parseJsDate latest with
  | none => none
  | some a =>
    match parseJsDate cached with
    | none => none
    | some b => some (decide (epochSeconds a > epochSeconds b))

/-- Model of `_compare(latest, cached)` of `fl_sync_activities`: the `except`
branch turns any parse failure into `True` (fail-open). -/
def flCompare (latest cached : List Char) : Bool :=
  (tryCompare latest cached).getD true

/-! ## Activity snapshots

`fl_sync_activities` reads the snapshot dictionaries only through
`.get(category, {})` followed by `.get(kind, fallback_date)`, so a snapshot
is modelled as a flat record of the leaf timestamps the code reads, each
`Option String` (`none` = key absent at either nesting level, which the
code resolves to the fallback sentinel). -/

/-- The leaves of an activity snapshot that `fl_sync_activities` reads. -/
structure Activities where
  all : Option String := none
  movies_collected_at : Option String := none
  movies_watchlisted_at : Option String := none
  movies_watched_at : Option String := none
  movies_paused_at : Option String := none
  shows_watchlisted_at : Option String := none
  shows_dropped_at : Option String := none
  episodes_collected_at : Option String := none
  episodes_watched_at : Option String := none
  episodes_paused_at : Option String := none
  lists_updated_at : Option String := none
  lists_liked_at : Option String := none
  recommendations : Option String := none
  favorites : Option String := none
deriving DecidableEq, Repr

/-- The `fallback_date` sentinel of `fl_sync_activities`. -/
def fallbackDate : String := "2020-01-01T00:00:01.000Z"

/-- Modelled from the spec: `caches.flicklist_cache.default_activities` is
not part of the source excerpt.  Per the spec's data-model invariant,
every category/kind pair is present, holding the fixed epoch sentinel
`2020-01-01T00:00:01.000Z`. -/
def default_activities : Activities :=
  { all := some fallbackDate
    movies_collected_at := some fallbackDate
    movies_watchlisted_at := some fallbackDate
    movies_watched_at := some fallbackDate
    movies_paused_at := some fallbackDate
    shows_watchlisted_at := some fallbackDate
    shows_dropped_at := some fallbackDate
    episodes_collected_at := some fallbackDate
    episodes_watched_at := some fallbackDate
    episodes_paused_at := some fallbackDate
    lists_updated_at := some fallbackDate
    lists_liked_at := some fallbackDate
    recommendations := some fallbackDate
    favorites := some fallbackDate }

/-- A value returned by `fl_get_activity` and stored as the baseline: the
endpoint's JSON object, or — when the HTTP response was 2xx but its body
was not JSON — the raw response text that `call_flicklist` returns. -/
inductive FLVal where
  | snap (a : Activities)
  | text (s : String)
deriving DecidableEq, Repr

/-- Possible results of the single `/sync/last-activities` HTTP exchange,
as observed through `call_flicklist`:
`ok a` — 2xx with a (non-empty) JSON object body;
`httpError` — a transport exception or a non-2xx status
(`raise_for_status` raises, the `except` branch returns `None`);
`badBody t` — 2xx but `resp.json()` raises, so the call returns
`resp.text`. -/
inductive FetchResult where
  | ok (a : Activities)
  | httpError
  | badBody (t : String)
deriving DecidableEq, Repr

/-- Model of `fl_get_activity()`: returns the `call_flicklist` result when truthy,
else `flicklist_cache.default_activities()`.  A transport failure is
swallowed inside `call_flicklist`, so this function does not raise on
network errors. -/
def fl_get_activity (fetch : FetchResult) : FLVal :=
  match fetch with
  | FetchResult.ok a => FLVal.snap a
  | FetchResult.httpError => FLVal.snap default_activities
  | FetchResult.badBody t =>
      if t = "" then FLVal.snap default_activities else FLVal.text t

/-- Observable cache/store side effects of one reconciliation pass, in
program order.  Each constructor names the `flicklist_cache` /
`kodi_utils` operation the code invokes; those collaborator modules are
not part of the source excerpt, so the effects are left abstract. -/
inductive Effect where
  | clearAllCache
  | clearDailyCache
  | fetchActivity
  | clearRecommendations
  | clearFavorites
  | clearCollectionWatchlist (listKind : String) (mediaType : String)
  | clearProperties (mediaType : String)
  | clearHidden (kind : String)
  | indicatorsMovies
  | indicatorsTV
  | fetchPlaybackProgress
  | progressMovies
  | progressTV
  | clearListData (name : String)
  | clearListContents (name : String)
deriving DecidableEq, Repr

/-- Persistent local state read and written by `fl_sync_activities`: the
stored activity baseline (the `flicklist_cache` record that
`reset_activity` maintains; `none` before the first sync) and the
`fenlightfl.flicklist.next_daily_clear` setting (written as
`str(int(...))`, read back through `int(...)`; modelled as the natural
number it denotes, `0` being the setting's default). -/
structure SyncState where
  baseline : Option FLVal
  nextDailyClear : Nat
deriving DecidableEq, Repr

/-- Return values of `fl_sync_activities` (`'no account'`, `'failed'`,
`'not needed'`, `'success'`), plus `raised` for an uncaught exception
escaping the call (which happens when the fetched value is a raw text
body: `latest.get(...)` raises `AttributeError` on a `str`). -/
inductive Outcome where
  | noAccount
  | failed
  | notNeeded
  | success
  | raised
deriving DecidableEq, Repr

/-- Result of one reconciliation pass: outcome, effect trace, new state. -/
structure SyncResult where
  outcome : Outcome
  effects : List Effect
  state : SyncState
deriving DecidableEq, Repr

/-- Leaf comparison as performed at every call site:
`_compare(latest.get(k, fallback_date), cached.get(k, fallback_date))`. -/
def actCmp (latest cached : Option String) : Bool :=
  flCompare (latest.getD fallbackDate).data (cached.getD fallbackDate).data

/-- Lines 1126-1175 of `flicklist_api.py`: the thirteen independent
category/kind comparisons and the actions they trigger, in program order
(the progress block and the list-actions block run after all
comparisons). -/
def categoryEffects (latest cached : Activities) : List Effect :=
  let e1 := if actCmp latest.recommendations cached.recommendations then
    [Effect.clearRecommendations] else []
  let e2 := if actCmp latest.favorites cached.favorites then
    [Effect.clearFavorites] else []
  let e3 := if actCmp latest.movies_collected_at cached.movies_collected_at then
    [Effect.clearCollectionWatchlist "collection" "movie"] else []
  let e4 := if actCmp latest.episodes_collected_at cached.episodes_collected_at then
    [Effect.clearCollectionWatchlist "collection" "tvshow"] else []
  let e5 := if actCmp latest.movies_watchlisted_at cached.movies_watchlisted_at then
    [Effect.clearCollectionWatchlist "watchlist" "movie"] else []
  let e6 := if actCmp latest.shows_watchlisted_at cached.shows_watchlisted_at then
    [Effect.clearCollectionWatchlist "watchlist" "tvshow"] else []
  let e7 := if actCmp latest.shows_dropped_at cached.shows_dropped_at then
    [Effect.clearProperties "episode", Effect.clearHidden "dropped"] else []
  let e8 := if actCmp latest.movies_watched_at cached.movies_watched_at then
    [Effect.clearProperties "movie", Effect.indicatorsMovies] else []
  let e9 := if actCmp latest.episodes_watched_at cached.episodes_watched_at then
    [Effect.clearProperties "episode", Effect.indicatorsTV] else []
  let refreshMovies := actCmp latest.movies_paused_at cached.movies_paused_at
  let refreshShows := actCmp latest.episodes_paused_at cached.episodes_paused_at
  let listsActions :=
    (if actCmp latest.lists_updated_at cached.lists_updated_at then
      ["my_lists"] else [])
    ++ (if actCmp latest.lists_liked_at cached.lists_liked_at then
      ["liked_lists"] else [])
  let eProg := if refreshMovies || refreshShows then
    [Effect.fetchPlaybackProgress]
    ++ (if refreshMovies then
        [Effect.clearProperties "movie", Effect.progressMovies] else [])
    ++ (if refreshShows then
        [Effect.clearProperties "episode", Effect.progressTV] else [])
    else []
  let eLists := listsActions.flatMap
    (fun s => [Effect.clearListData s, Effect.clearListContents s])
  e1 ++ e2 ++ e3 ++ e4 ++ e5 ++ e6 ++ e7 ++ e8 ++ e9 ++ eProg ++ eLists

/-- Lines 1110-1115 of `fl_sync_activities`: the forced-reset branch and
(otherwise) the daily-expiry gate `int(time.time()) >= int(get_setting(
'fenlightfl.flicklist.next_daily_clear', '0'))`, whose passing triggers
`clear_daily_cache()` and advances the stored gate to
`int(time.time()) + 24 * 3600`. -/
def dailyPhase (force_update : Bool) (now : Nat) (st : SyncState) :
    List Effect × SyncState :=
  if force_update then
    ([Effect.clearAllCache], st)
  else if st.nextDailyClear ≤ now then
    ([Effect.clearDailyCache], { st with nextDailyClear := now + 24 * 3600 })
  else
    ([], st)

/-- Lines 1118-1176 of `fl_sync_activities`: fetch the activity snapshot
(the `try/except` around `fl_get_activity` can only return `'failed'` if
`fl_get_activity` raises, which it cannot — `call_flicklist` catches
transport errors internally, so `Outcome.failed` is unreachable);
atomically replace the stored baseline with the fetched value via
`reset_activity`; short-circuit on the `all` watermark; otherwise run the
thirteen category comparisons.  When the fetched value or the previously
stored baseline is a raw text body, `.get` on a `str` raises an uncaught
`AttributeError` (`Outcome.raised`). -/
def fetchPhase (fetch : FetchResult) (st0 : SyncState) : SyncResult :=
  let latest := fl_get_activity fetch
  let eff1 := [Effect.fetchActivity]
  let cachedV := st0.baseline.getD (FLVal.snap default_activities)
  let st1 := { st0 with baseline := some latest }
  match latest, cachedV with
  | FLVal.text _, _ => ⟨Outcome.raised, eff1, st1⟩
  | FLVal.snap _, FLVal.text _ => ⟨Outcome.raised, eff1, st1⟩
  | FLVal.snap l, FLVal.snap c =>
    if ¬ actCmp l.all c.all then
      ⟨Outcome.notNeeded, eff1, st1⟩
    else
      ⟨Outcome.success, eff1 ++ categoryEffects l c, st1⟩

/-- Model of `fl_sync_activities(force_update)`, lines 1095-1176.

Modelled from the spec where collaborators are missing from the source
excerpt:
* `modules.settings.flicklist_user_active()` is the `userActive` input
  (spec step 4: "the user has no active remote account").
* `caches.flicklist_cache.reset_activity(latest)` is the only baseline
  access in the pass and nothing writes the baseline afterwards; per the
  spec's store operations (`get_baseline` returning the sentinel-filled
  default when none is stored, `set_baseline` an atomic replace) and the
  spec property "forced reset always persists the new baseline regardless
  of watermark comparison", it atomically replaces the stored baseline
  with its argument and returns the previously stored value.
* `caches.settings_cache.set_setting` prefixes keys with `fenlightfl.`
  (the token written by `set_setting('flicklist.token', ...)` is read back
  via `get_setting('fenlightfl.flicklist.token')`), so the daily gate
  written at line 1115 is the one read at line 1109.
* `clear_all_fl_cache_data`, `clear_daily_cache` and the per-partition
  clears are abstract `Effect`s.
* `fl_refresh_token()` swallows every exception and performs no cache or
  settings write, so it contributes no effect.
* `int(time.time())` is the single instant `now` (the code samples the
  clock twice in the daily branch; both samples are modelled as `now`). -/
def fl_sync_activities (force_update userActive : Bool) (now : Nat)
    (fetch : FetchResult) (st : SyncState) : SyncResult :=
  let p := dailyPhase force_update now st
  if ¬ userActive ∧ ¬ force_update then
    ⟨Outcome.noAccount, p.1, p.2⟩
  else
    let r := fetchPhase fetch p.2
    ⟨r.outcome, p.1 ++ r.effects, r.state⟩

/-! ### Concrete snapshots used by witnesses and counterexamples -/

/-- A snapshot with every leaf present and equal to 2024-01-01. -/
def snapJan : Activities :=
  { all := some "2024-01-01T00:00:00.000Z"
    movies_collected_at := some "2024-01-01T00:00:00.000Z"
    movies_watchlisted_at := some "2024-01-01T00:00:00.000Z"
    movies_watched_at := some "2024-01-01T00:00:00.000Z"
    movies_paused_at := some "2024-01-01T00:00:00.000Z"
    shows_watchlisted_at := some "2024-01-01T00:00:00.000Z"
    shows_dropped_at := some "2024-01-01T00:00:00.000Z"
    episodes_collected_at := some "2024-01-01T00:00:00.000Z"
    episodes_watched_at := some "2024-01-01T00:00:00.000Z"
    episodes_paused_at := some "2024-01-01T00:00:00.000Z"
    lists_updated_at := some "2024-01-01T00:00:00.000Z"
    lists_liked_at := some "2024-01-01T00:00:00.000Z"
    recommendations := some "2024-01-01T00:00:00.000Z"
    favorites := some "2024-01-01T00:00:00.000Z" }

/-- Variant of `snapJan` with only `movies.watched_at` and the `all` watermark
advanced to 2024-06-01. -/
def snapJunWatched : Activities :=
  { snapJan with
    all := some "2024-06-01T00:00:00.000Z"
    movies_watched_at := some "2024-06-01T00:00:00.000Z" }

/-- Variant of `snapJan` with only `movies.watched_at` advanced, the `all` watermark
unchanged. -/
def snapJanStaleAll : Activities :=
  { snapJan with movies_watched_at := some "2024-06-01T00:00:00.000Z" }

/-- Two equal leaves whose resolved value parses: not newer. -/
def leafEqWF (x y : Option String) : Prop :=
  x = y ∧ parseJsDate (x.getD fallbackDate).data ≠ none

/-- A leaf strictly advances: both operands are well-formed timestamps and
the fresh one has strictly larger epoch seconds. -/
def leafAdvances (x y : Option String) : Prop :=
  ∃ a b, parseJsDate (x.getD fallbackDate).data = some a
    ∧ parseJsDate (y.getD fallbackDate).data = some b
    ∧ epochSeconds a > epochSeconds b

/-- The stored baseline record holds a snapshot (or nothing), not a raw
text body left over from an unparseable response. -/
def baselineWellFormed : Option FLVal → Bool
  | some (FLVal.text _) => false
  | _ => true

/-- The snapshot `reset_activity` hands back: the stored one if it is a
snapshot, else the sentinel-filled default. -/
def cachedSnapOf : Option FLVal → Activities
  | some (FLVal.snap a) => a
  | _ => default_activities

/-! ## The transport `call_flicklist` (lines 87-141)

The call is modelled against a queue of HTTP responses: the head is what
the single `requests.*` call of one invocation observes, and a recursive
invocation consumes the tail.  Headers, URL and parameters do not affect
the control flow modelled here; the parsed body is abstracted to a
string. -/

/-- One HTTP exchange as observed by `call_flicklist`: whether the request
itself raised (connection error/timeout), the response status, the value
`int(resp.headers.get('Retry-After', 5))`, and the body. -/
structure HttpResponse where
  networkError : Bool
  status : Nat
  retryAfter : Nat
  body : String
deriving DecidableEq, Repr

/-- Observable behaviour of one `call_flicklist` invocation: how many HTTP
requests were issued, the `kodi_utils.sleep` durations (milliseconds) in
order, and the returned value (`none` models returning `None`). -/
structure CallTrace where
  requests : Nat
  sleepsMs : List Nat
  result : Option String
deriving DecidableEq, Repr

/-- Model of `call_flicklist` (non-paginated form; the paginated form returns
`(None, page_no)` in place of `None` and does not change the control
flow).  `resp.raise_for_status()` raises `HTTPError` for every status
≥ 400, and the surrounding `try/except` catches it and returns `None`;
the `status_code == 401` and `status_code == 429` tests run only after
that.  The 429 branch sleeps and recursively retries with no retry
counter; an empty response queue models the remote never answering with
a status < 400 again. -/
def call_flicklist : List HttpResponse → CallTrace
  | [] => ⟨0, [], none⟩
  | r :: rest =>
    if r.networkError ∨ 400 ≤ r.status then
      ⟨1, [], none⟩
    else if r.status = 401 then
      ⟨1, [], none⟩
    else if r.status = 429 then
      let t := call_flicklist rest
      ⟨t.requests + 1, r.retryAfter * 1000 :: t.sleepsMs, t.result⟩
    else
      ⟨1, [], some r.body⟩

/-! ## The watched/progress index builders (lines 840-961)

`fl_indicators_tv`, `fl_progress_movies` and `fl_progress_tv` transform
remote history/progress records into tuples and bulk-replace the local
watched/progress indexes.  The per-item thread fan-out only reorders the
shared `insert_list`; the spec's join-all guarantee makes the computed
multiset the sequential one, so the builders are modelled as sequential
list transforms.  `str(...)` serialisation of the tmdb id and the rounded
progress is dropped: the modelled tuple carries the numeric values the
strings denote. -/

/-- A `/scrobble/history` record, restricted to the keys
`fl_indicators_tv`'s `_process` reads. -/
structure HistoryItem where
  tmdb_id : Option Nat
  title : String
  season_number : Int
  episode_number : Int
  watched_at : Option String
  created_at : Option String
deriving DecidableEq, Repr

/-- A tuple appended to `insert_list` for the watched index:
`(kind, tmdb_id, season, episode, watched_at, title)`; movies store `''`
in the season/episode slots, modelled as `none`. -/
structure WatchedTuple where
  kind : String
  tmdb : Nat
  season : Option Int
  episode : Option Int
  watched_at : String
  title : String
deriving DecidableEq, Repr

/-- Python truthiness of an optional integer (`None` and `0` are falsy). -/
def truthyNat : Option Nat → Bool
  | none => false
  | some n => n != 0

/-- Model of `fl_indicators_tv`, lines 859-879: the tuples passed to
`set_bulk_tvshow_watched`.  `_process` skips items without a truthy
`tmdb_id` and keeps an item only when `season and season > 0`. -/
def fl_indicators_tv_inserts (items : List HistoryItem) :
    List WatchedTuple :=
  items.filterMap fun item =>
    match item.tmdb_id with
    | none => none
    | some tid =>
      if tid = 0 then none
      else if item.season_number ≠ 0 ∧ 0 < item.season_number then
        some ⟨"episode", tid, some item.season_number,
          some item.episode_number,
          item.watched_at.getD (item.created_at.getD ""), item.title⟩
      else none

/-- Media identifiers as read by `get_fl_movie_id`/`get_fl_tvshow_id`. -/
structure Ids where
  tmdb : Option Nat
  imdb : Option String
  tvdb : Option Nat
deriving DecidableEq, Repr

/-- The media half of a `fl_playback_progress` item: a `movie` sub-dict,
or `show` + `episode` sub-dicts. -/
inductive PMedia where
  | movie (title : String) (ids : Ids)
  | episode (showTitle : String) (ids : Ids) (season : Int) (number : Int)
deriving DecidableEq, Repr

/-- An element of the list `fl_playback_progress` returns. -/
structure ProgressItem where
  progress : ℚ
  paused_at : String
  pid : Nat
  media : PMedia
deriving DecidableEq, Repr

/-- The `'type'` field `fl_playback_progress` stores. -/
def ptypeOf : PMedia → String
  | PMedia.movie _ _ => "movie"
  | PMedia.episode _ _ _ _ => "episode"

/-- A tuple appended to `insert_list` for a progress index:
`(kind, tmdb_id, season, episode, progress, resume_id, paused_at, id,
title)`.  The code stores `str(round(progress, 1))`; the tuple carries the
rounded rational that string denotes. -/
structure ProgressTuple where
  kind : String
  tmdb : Nat
  season : Option Int
  episode : Option Int
  progress : ℚ
  resume_id : Nat
  paused_at : String
  pid : Nat
  title : String
deriving DecidableEq, Repr

/-- Python `round` to the nearest integer, ties to the even integer,
computed on the rational's normal form: `f` is the floor (Euclidean
division by the positive denominator) and the fractional part `r/den` is
compared against `1/2` by comparing `2*r` against `den`. -/
def pyRoundHalfEven (q : ℚ) : ℤ :=
  let d := Int.ofNat q.den
  let f := q.num / d
  let r := q.num - f * d
  if 2 * r < d then f
  else if d < 2 * r then f + 1
  else if f % 2 = 0 then f else f + 1

/-- Python `round(q, 1)`: round to one decimal digit, under exact decimal
arithmetic — half-even rounding of `q * 10`, divided by `10`.  The scaled
operand `q * 10` is written as `(q.num * 10) / q.den` so that the whole
function evaluates by kernel reduction. -/
def round1 (q : ℚ) : ℚ :=
  Rat.divInt (pyRoundHalfEven (Rat.divInt (q.num * 10) (Int.ofNat q.den))) 10

/-- Model of `get_fl_movie_id`, lines 1179-1190.  The external
`movie_meta_external_id` lookup (with its `try/except` guard) is the
oracle `imdbToTmdb`; a `none` result models both a failed lookup and a
missing `imdb` key. -/
def get_fl_movie_id (imdbToTmdb : String → Option Nat) (ids : Ids) :
    Option Nat :=
  if truthyNat ids.tmdb then ids.tmdb
  else
    match ids.imdb with
    | some s => if s ≠ "" then imdbToTmdb s else none
    | none => none

/-- Model of `get_fl_tvshow_id`, lines 1192-1210: tmdb id if truthy, else the imdb
lookup, else (when that is falsy and a tvdb id is present) the tvdb
lookup. -/
def get_fl_tvshow_id (imdbToTmdb : String → Option Nat)
    (tvdbToTmdb : Nat → Option Nat) (ids : Ids) : Option Nat :=
  if truthyNat ids.tmdb then ids.tmdb
  else
    let t1 : Option Nat :=
      match ids.imdb with
      | some s => if s ≠ "" then imdbToTmdb s else none
      | none => none
    if truthyNat t1 then t1
    else
      match ids.tvdb with
      | some n => if n ≠ 0 then tvdbToTmdb n else t1
      | none => t1

/-- Model of `fl_progress_movies`, lines 914-929: the tuples passed to
`set_bulk_movie_progress`.  Items are pre-filtered to
`type == 'movie' and progress > 1`; `_process` skips items whose tmdb id
does not resolve to a truthy value. -/
def fl_progress_movies_inserts (imdbToTmdb : String → Option Nat)
    (progress_info : List ProgressItem) : List ProgressTuple :=
  let progress_items := progress_info.filter fun i =>
    ptypeOf i.media == "movie" && decide ((1 : ℚ) < i.progress)
  progress_items.filterMap fun item =>
    match item.media with
    | PMedia.movie title ids =>
      match get_fl_movie_id imdbToTmdb ids with
      | none => none
      | some tid =>
        if tid = 0 then none
        else some ⟨"movie", tid, none, none, round1 item.progress, 0,
          item.paused_at, item.pid, title⟩
    | PMedia.episode _ _ _ _ => none

/-- A `show` sub-dict: `{title, ids}`. -/
structure ShowRef where
  title : String
  ids : Ids
deriving DecidableEq, Repr

/-- Python `[i for n, i in enumerate(l) if not i in l[n + 1:]]`: keep an element
only when it does not occur again later (deduplicate keeping the last
occurrence). -/
def dedupeKeepLast {α : Type} [DecidableEq α] : List α → List α
  | [] => []
  | x :: xs => if x ∈ xs then dedupeKeepLast xs else x :: dedupeKeepLast xs

/-- The `show` sub-dict of a progress item, when present. -/
def showOf : PMedia → Option ShowRef
  | PMedia.episode t ids _ _ => some ⟨t, ids⟩
  | PMedia.movie _ _ => none

/-- Model of `fl_progress_tv`, lines 931-961: the tuples passed to
`set_bulk_tvshow_progress`.  Items are pre-filtered to
`type == 'episode' and progress > 1`; shows are deduplicated and resolved
to tmdb ids; `_process` yields, per resolved show and per progress item
with a matching show title, a tuple when `season > 0`. -/
def fl_progress_tv_inserts (imdbToTmdb : String → Option Nat)
    (tvdbToTmdb : Nat → Option Nat) (progress_info : List ProgressItem) :
    List ProgressTuple :=
  let progress_items := progress_info.filter fun i =>
    ptypeOf i.media == "episode" && decide ((1 : ℚ) < i.progress)
  let all_shows := dedupeKeepLast
    (progress_items.filterMap fun i => showOf i.media)
  let tmdb_list := all_shows.map fun s =>
    (get_fl_tvshow_id imdbToTmdb tvdbToTmdb s.ids, s.title)
  tmdb_list.flatMap fun pair =>
    match pair.1 with
    | none => []
    | some tid =>
      if tid = 0 then []
      else
        progress_items.filterMap fun p =>
          match p.media with
          | PMedia.episode showTitle _ season number =>
            if showTitle = pair.2 ∧ 0 < season then
              some ⟨"episode", tid, some season, some number,
                round1 p.progress, 0, p.paused_at, p.pid, showTitle⟩
            else none
          | PMedia.movie _ _ => none

/-! ## The slug generator `make_fl_slug` (lines 1212-1219) -/

/-- ASCII whitespace stripped by `str.strip()` (the Unicode whitespace
code points behave identically for the properties proved here: none of
them survives the character substitution). -/
def isPySpace (c : Char) : Bool :=
  c.toNat = 32 ∨ c.toNat = 9 ∨ c.toNat = 10 ∨ c.toNat = 11
    ∨ c.toNat = 12 ∨ c.toNat = 13

/-- Python `name.strip()`: drop leading and trailing whitespace. -/
def pyStrip (l : List Char) : List Char :=
  ((l.dropWhile isPySpace).reverse.dropWhile isPySpace).reverse

/-- Python `name.lower()`, on the ASCII range (non-ASCII lowercasing only changes
which input characters are substituted away and cannot produce characters
outside the slug alphabet). -/
def pyToLower (c : Char) : Char :=
  if 65 ≤ c.toNat ∧ c.toNat ≤ 90 then
    Char.ofNat (c.toNat + 32)
  else c

/-- Membership in the character class `[a-z0-9_]` of the first `re.sub`. -/
def isSlugChar (c : Char) : Bool :=
  (97 ≤ c.toNat ∧ c.toNat ≤ 122) ∨ (48 ≤ c.toNat ∧ c.toNat ≤ 57)
    ∨ c.toNat = 95

/-- Python `re.sub('[^a-z0-9_]', '-', name)`: per-character substitution. -/
def subNonSlug (c : Char) : Char := if isSlugChar c then c else '-'

/-- One step of collapsing hyphen runs: a hyphen is dropped when the
output already starts with a hyphen. -/
def collapseStep (c : Char) (acc : List Char) : List Char :=
  if c = '-' ∧ acc.head? = some '-' then acc else c :: acc

/-- Python `re.sub('--+', '-', name)`: replace every maximal run of two or more
hyphens with a single hyphen, as a right fold. -/
def collapseDashes (l : List Char) : List Char := l.foldr collapseStep []

/-- Model of `make_fl_slug(name)`: strip, lowercase, substitute characters outside
`[a-z0-9_]` with `-`, collapse hyphen runs. -/
def make_fl_slug (s : List Char) : List Char :=
  collapseDashes (((pyStrip s).map pyToLower).map subNonSlug)

/-- The output alphabet of the slug: `[a-z0-9_]` or `-`. -/
def slugOut (c : Char) : Prop := isSlugChar c = true ∨ c = '-'

/-- No two adjacent characters are both hyphens. -/
def noDD (a b : Char) : Prop := ¬(a = '-' ∧ b = '-')

/-! ### Concrete inputs for witnesses and counterexamples -/

/-- An identifier-resolution oracle that always fails. -/
def noOracle : String → Option Nat := fun _ => none

/-- A tvdb-resolution oracle that always fails. -/
def noOracleT : Nat → Option Nat := fun _ => none

/-- A movie progress item at 1.01 percent, directly identified. -/
def cexProgressItem : ProgressItem :=
  ⟨Rat.divInt 101 100, "2024-01-01T00:00:00.000Z", 9,
    PMedia.movie "M" ⟨some 5, none, none⟩⟩

/-- A 429 (rate-limited) response with `Retry-After: 7`. -/
def resp429 : HttpResponse := ⟨false, 429, 7, "limited"⟩

/-- A successful 200 response. -/
def resp200 : HttpResponse := ⟨false, 200, 5, "ok"⟩

/-! ## Helper lemmas -/

theorem mem_ite_nil {α : Type} {c : Prop} [Decidable c] {x : α}
    {l : List α} : (x ∈ if c then l else []) ↔ c ∧ x ∈ l := by
  split
  next hc => simp [hc]
  next hc => simp [hc]

theorem clearDaily_not_mem_categoryEffects (l c : Activities) :
    Effect.clearDailyCache ∉ categoryEffects l c := by
  simp [categoryEffects, mem_ite_nil, List.mem_append, List.mem_flatMap]

theorem clearAll_not_mem_categoryEffects (l c : Activities) :
    Effect.clearAllCache ∉ categoryEffects l c := by
  simp [categoryEffects, mem_ite_nil, List.mem_append, List.mem_flatMap]

/-- A timestamp that parses is never strictly newer than itself. -/
theorem flCompare_self {l : List Char} (h : parseJsDate l ≠ none) :
    flCompare l l = false := by
  cases hp : parseJsDate l with
  | none => exact absurd hp h
  | some a => simp [flCompare, tryCompare, hp, lt_self_iff_false]

/-- A leaf whose resolved value parses is not newer than itself. -/
theorem actCmp_self {x : Option String}
    (h : parseJsDate (x.getD fallbackDate).data ≠ none) :
    actCmp x x = false := by
  simpa [actCmp] using flCompare_self h

theorem actCmp_of_leafEqWF {x y : Option String} (h : leafEqWF x y) :
    actCmp x y = false := by
  rcases h with ⟨rfl, hp⟩
  exact actCmp_self hp

theorem actCmp_of_leafAdvances {x y : Option String}
    (h : leafAdvances x y) : actCmp x y = true := by
  rcases h with ⟨a, b, ha, hb, hgt⟩
  simp [actCmp, flCompare, tryCompare, ha, hb, hgt]

/-! ### Structural lemmas about the phases -/

theorem fetchPhase_state (fetch : FetchResult) (st0 : SyncState) :
    (fetchPhase fetch st0).state =
      { st0 with baseline := some (fl_get_activity fetch) } := by
  unfold fetchPhase
  rcases fl_get_activity fetch with a | t
  · rcases hb : st0.baseline with _ | v
    · simp only [hb, Option.getD]
      split <;> rfl
    · rcases v with a2 | t2
      · simp only [hb, Option.getD]
        split <;> rfl
      · simp [hb]
  · rfl

theorem fetchPhase_effects (fetch : FetchResult) (st0 : SyncState) :
    (fetchPhase fetch st0).effects = [Effect.fetchActivity]
    ∨ ∃ l c, (fetchPhase fetch st0).effects =
        Effect.fetchActivity :: categoryEffects l c := by
  unfold fetchPhase
  rcases fl_get_activity fetch with a | t
  · rcases hb : st0.baseline with _ | v
    · simp only [hb, Option.getD]
      split
      · exact Or.inl rfl
      · exact Or.inr ⟨a, default_activities, rfl⟩
    · rcases v with a2 | t2
      · simp only [hb, Option.getD]
        split
        · exact Or.inl rfl
        · exact Or.inr ⟨a, a2, rfl⟩
      · simp [hb]
  · simp

theorem clearDaily_not_mem_fetchPhase (fetch : FetchResult)
    (st0 : SyncState) :
    Effect.clearDailyCache ∉ (fetchPhase fetch st0).effects := by
  rcases fetchPhase_effects fetch st0 with h | ⟨l, c, h⟩ <;> rw [h]
  · simp
  · simp [clearDaily_not_mem_categoryEffects l c]

theorem clearAll_not_mem_fetchPhase (fetch : FetchResult)
    (st0 : SyncState) :
    Effect.clearAllCache ∉ (fetchPhase fetch st0).effects := by
  rcases fetchPhase_effects fetch st0 with h | ⟨l, c, h⟩ <;> rw [h]
  · simp
  · simp [clearAll_not_mem_categoryEffects l c]

theorem fetchPhase_outcome (fetch : FetchResult) (st0 : SyncState) :
    (fetchPhase fetch st0).outcome ≠ Outcome.noAccount
    ∧ (fetchPhase fetch st0).outcome ≠ Outcome.failed := by
  unfold fetchPhase
  rcases fl_get_activity fetch with a | t
  · rcases hb : st0.baseline with _ | v
    · simp only [hb, Option.getD]
      split <;> simp
    · rcases v with a2 | t2
      · simp only [hb, Option.getD]
        split <;> simp
      · simp [hb]
  · simp

/-- A fetched snapshot against a well-formed stored baseline, stale `all`
watermark: the `not needed` short-circuit, with the baseline nevertheless
already replaced. -/
theorem fetchPhase_gate_false {B : Activities} {st0 : SyncState}
    (hb : baselineWellFormed st0.baseline = true)
    (hg : actCmp B.all (cachedSnapOf st0.baseline).all = false) :
    fetchPhase (FetchResult.ok B) st0 =
      ⟨Outcome.notNeeded, [Effect.fetchActivity],
        { st0 with baseline := some (FLVal.snap B) }⟩ := by
  unfold fetchPhase
  rcases hbase : st0.baseline with _ | v
  · simp only [hbase, cachedSnapOf] at hg
    simp [hbase, fl_get_activity, cachedSnapOf, hg]
  · rcases v with a | t
    · simp only [hbase, cachedSnapOf] at hg
      simp [hbase, fl_get_activity, cachedSnapOf, hg]
    · rw [hbase] at hb
      simp [baselineWellFormed] at hb

/-- A fetched snapshot against a well-formed stored baseline, advanced
`all` watermark: the full comparison pass runs and the baseline is
replaced. -/
theorem fetchPhase_gate_true {B : Activities} {st0 : SyncState}
    (hb : baselineWellFormed st0.baseline = true)
    (hg : actCmp B.all (cachedSnapOf st0.baseline).all = true) :
    fetchPhase (FetchResult.ok B) st0 =
      ⟨Outcome.success,
        Effect.fetchActivity :: categoryEffects B (cachedSnapOf st0.baseline),
        { st0 with baseline := some (FLVal.snap B) }⟩ := by
  unfold fetchPhase
  rcases hbase : st0.baseline with _ | v
  · simp only [hbase, cachedSnapOf] at hg
    simp [hbase, fl_get_activity, cachedSnapOf, hg]
  · rcases v with a | t
    · simp only [hbase, cachedSnapOf] at hg
      simp [hbase, fl_get_activity, cachedSnapOf, hg]
    · rw [hbase] at hb
      simp [baselineWellFormed] at hb

theorem dailyPhase_forced (now : Nat) (st : SyncState) :
    dailyPhase true now st = ([Effect.clearAllCache], st) := by
  simp [dailyPhase]

theorem dailyPhase_due {now : Nat} {st : SyncState}
    (h : st.nextDailyClear ≤ now) :
    dailyPhase false now st =
      ([Effect.clearDailyCache],
        { st with nextDailyClear := now + 24 * 3600 }) := by
  simp [dailyPhase, h]

theorem dailyPhase_not_due {now : Nat} {st : SyncState}
    (h : now < st.nextDailyClear) :
    dailyPhase false now st = ([], st) := by
  simp [dailyPhase, Nat.not_le_of_lt h]

theorem dailyPhase_baseline (force : Bool) (now : Nat) (st : SyncState) :
    (dailyPhase force now st).2.baseline = st.baseline := by
  unfold dailyPhase
  split
  · rfl
  · split <;> rfl

/-- With an active account (or a forced reset) the pass runs the fetch
phase after the daily phase. -/
theorem sync_run (force userActive : Bool) (now : Nat)
    (fetch : FetchResult) (st : SyncState)
    (h : userActive = true ∨ force = true) :
    fl_sync_activities force userActive now fetch st =
      ⟨(fetchPhase fetch (dailyPhase force now st).2).outcome,
        (dailyPhase force now st).1
          ++ (fetchPhase fetch (dailyPhase force now st).2).effects,
        (fetchPhase fetch (dailyPhase force now st).2).state⟩ := by
  unfold fl_sync_activities
  rcases h with rfl | rfl <;> simp

/-- With no active account and no forced reset the pass stops after the
daily phase. -/
theorem sync_noAccount (now : Nat) (fetch : FetchResult) (st : SyncState) :
    fl_sync_activities false false now fetch st =
      ⟨Outcome.noAccount, (dailyPhase false now st).1,
        (dailyPhase false now st).2⟩ := by
  unfold fl_sync_activities
  simp

/-- Active account, daily gate still in the future: the pass is exactly
the fetch phase. -/
theorem sync_active_not_due {now : Nat} {st : SyncState}
    (fetch : FetchResult) (hdaily : now < st.nextDailyClear) :
    fl_sync_activities false true now fetch st =
      ⟨(fetchPhase fetch st).outcome, (fetchPhase fetch st).effects,
        (fetchPhase fetch st).state⟩ := by
  rw [sync_run false true now fetch st (Or.inl rfl),
    dailyPhase_not_due hdaily]
  simp

/-! ## Claim theorems -/

/-- C1, counterexample: with an active account, no forced reset, daily
gate in the future, and a successfully fetched snapshot whose `all`
watermark equals the stored baseline's but whose `movies.watched_at`
differs, the pass returns `not needed` and touches no partition — yet the
stored baseline is NOT left unchanged: it now holds the fetched snapshot.
This refutes the claim's frame condition on the baseline. -/
theorem C1_counterexample :
    (fl_sync_activities false true 5 (FetchResult.ok snapJanStaleAll)
        ⟨some (FLVal.snap snapJan), 1000000⟩).outcome = Outcome.notNeeded
    ∧ (fl_sync_activities false true 5 (FetchResult.ok snapJanStaleAll)
        ⟨some (FLVal.snap snapJan), 1000000⟩).effects = [Effect.fetchActivity]
    ∧ (fl_sync_activities false true 5 (FetchResult.ok snapJanStaleAll)
        ⟨some (FLVal.snap snapJan), 1000000⟩).state.baseline
      ≠ some (FLVal.snap snapJan) := by
  refine ⟨by decide, by decide, by decide⟩

/-- C1 (amended): when the fetched snapshot's `all` watermark is not
strictly newer than the stored baseline's, the pass (active account, no
forced reset, daily gate in the future) returns `not needed` and performs
no invalidation — its only effect is the activity fetch — but the stored
baseline is replaced by the fetched snapshot (so it is unchanged exactly
when the fetched snapshot equals the stored one). -/
theorem C1_not_needed_frame (st : SyncState) (A B : Activities) (now : Nat)
    (hdaily : now < st.nextDailyClear)
    (hbase : st.baseline = some (FLVal.snap A))
    (hgate : actCmp B.all A.all = false) :
    fl_sync_activities false true now (FetchResult.ok B) st =
      ⟨Outcome.notNeeded, [Effect.fetchActivity],
        { st with baseline := some (FLVal.snap B) }⟩ := by
  rw [sync_active_not_due (FetchResult.ok B) hdaily,
    fetchPhase_gate_false (by rw [hbase]; rfl)
      (by rw [hbase]; simpa [cachedSnapOf] using hgate)]

/-- C1, witness. -/
theorem C1_not_needed_frame_witness :
    fl_sync_activities false true 5 (FetchResult.ok snapJanStaleAll)
        ⟨some (FLVal.snap snapJan), 1000000⟩ =
      ⟨Outcome.notNeeded, [Effect.fetchActivity],
        ⟨some (FLVal.snap snapJanStaleAll), 1000000⟩⟩ :=
  C1_not_needed_frame ⟨some (FLVal.snap snapJan), 1000000⟩ snapJan
    snapJanStaleAll 5 (by decide) rfl (by decide)

/-- C2: evaluation of the code at fetch-failure inputs.  The claim says a
failed fetch yields the `fetch_failed` outcome with the baseline
untouched.  The code disagrees: a transport failure makes
`call_flicklist` return `None`, so `fl_get_activity` returns
`default_activities()` without raising and the pass proceeds, storing the
sentinel snapshot as the new baseline and returning `not needed` (the
sentinel `all` is not newer than the stored 2024 baseline); an
unparseable 2xx body makes `call_flicklist` return the response text, so
the pass stores that text as the baseline and then raises
`AttributeError` on `latest.get` — `'failed'` is never returned in either
case. -/
theorem C2_fetch_failure_eval :
    (fl_sync_activities false true 5 FetchResult.httpError
        ⟨some (FLVal.snap snapJan), 1000000⟩).outcome = Outcome.notNeeded
    ∧ (fl_sync_activities false true 5 FetchResult.httpError
        ⟨some (FLVal.snap snapJan), 1000000⟩).state.baseline
      = some (FLVal.snap default_activities)
    ∧ (fl_sync_activities false true 5 (FetchResult.badBody "<html>")
        ⟨some (FLVal.snap snapJan), 1000000⟩).outcome = Outcome.raised
    ∧ (fl_sync_activities false true 5 (FetchResult.badBody "<html>")
        ⟨some (FLVal.snap snapJan), 1000000⟩).state.baseline
      = some (FLVal.text "<html>")
    ∧ (∀ fetch st,
        (fl_sync_activities false true 5 fetch st).outcome ≠ Outcome.failed) := by
  refine ⟨by decide, by decide, by decide, by decide, ?_⟩
  intro fetch st
  rw [sync_run false true 5 fetch st (Or.inl rfl)]
  exact (fetchPhase_outcome fetch (dailyPhase false 5 st).2).2

/-- C4: a snapshot pair with every leaf equal to its baseline counterpart
(as well-formed timestamps) except `movies.watched_at`, which strictly
advances along with the `all` watermark: the pass (active account, no
forced reset, daily gate in the future) succeeds and its effects are
exactly the fetch, the movie watched-indicator property clear, and the
movie WatchedIndex repopulation — no list action, no progress refresh, no
other partition invalidation. -/
theorem C4_movie_watched_only (st : SyncState) (now : Nat)
    (latest cached : Activities)
    (hdaily : now < st.nextDailyClear)
    (hbase : st.baseline = some (FLVal.snap cached))
    (h01 : leafEqWF latest.movies_collected_at cached.movies_collected_at)
    (h02 : leafEqWF latest.movies_watchlisted_at cached.movies_watchlisted_at)
    (h03 : leafEqWF latest.movies_paused_at cached.movies_paused_at)
    (h04 : leafEqWF latest.shows_watchlisted_at cached.shows_watchlisted_at)
    (h05 : leafEqWF latest.shows_dropped_at cached.shows_dropped_at)
    (h06 : leafEqWF latest.episodes_collected_at cached.episodes_collected_at)
    (h07 : leafEqWF latest.episodes_watched_at cached.episodes_watched_at)
    (h08 : leafEqWF latest.episodes_paused_at cached.episodes_paused_at)
    (h09 : leafEqWF latest.lists_updated_at cached.lists_updated_at)
    (h10 : leafEqWF latest.lists_liked_at cached.lists_liked_at)
    (h11 : leafEqWF latest.recommendations cached.recommendations)
    (h12 : leafEqWF latest.favorites cached.favorites)
    (hw : leafAdvances latest.movies_watched_at cached.movies_watched_at)
    (hall : leafAdvances latest.all cached.all) :
    fl_sync_activities false true now (FetchResult.ok latest) st =
      ⟨Outcome.success,
        [Effect.fetchActivity, Effect.clearProperties "movie",
          Effect.indicatorsMovies],
        { st with baseline := some (FLVal.snap latest) }⟩ := by
  have e01 := actCmp_of_leafEqWF h01
  have e02 := actCmp_of_leafEqWF h02
  have e03 := actCmp_of_leafEqWF h03
  have e04 := actCmp_of_leafEqWF h04
  have e05 := actCmp_of_leafEqWF h05
  have e06 := actCmp_of_leafEqWF h06
  have e07 := actCmp_of_leafEqWF h07
  have e08 := actCmp_of_leafEqWF h08
  have e09 := actCmp_of_leafEqWF h09
  have e10 := actCmp_of_leafEqWF h10
  have e11 := actCmp_of_leafEqWF h11
  have e12 := actCmp_of_leafEqWF h12
  have ew := actCmp_of_leafAdvances hw
  have eall := actCmp_of_leafAdvances hall
  rw [sync_active_not_due (FetchResult.ok latest) hdaily,
    fetchPhase_gate_true (by rw [hbase]; rfl)
      (by rw [hbase]; simpa [cachedSnapOf] using eall)]
  rw [hbase]
  simp [cachedSnapOf, categoryEffects, e01, e02, e03, e04, e05, e06, e07,
    e08, e09, e10, e11, e12, ew]

/-- C4, witness. -/
theorem C4_movie_watched_only_witness :
    fl_sync_activities false true 5 (FetchResult.ok snapJunWatched)
        ⟨some (FLVal.snap snapJan), 1000000⟩ =
      ⟨Outcome.success,
        [Effect.fetchActivity, Effect.clearProperties "movie",
          Effect.indicatorsMovies],
        ⟨some (FLVal.snap snapJunWatched), 1000000⟩⟩ :=
  C4_movie_watched_only ⟨some (FLVal.snap snapJan), 1000000⟩ 5
    snapJunWatched snapJan (by decide) rfl
    ⟨rfl, by decide⟩ ⟨rfl, by decide⟩ ⟨rfl, by decide⟩ ⟨rfl, by decide⟩
    ⟨rfl, by decide⟩ ⟨rfl, by decide⟩ ⟨rfl, by decide⟩ ⟨rfl, by decide⟩
    ⟨rfl, by decide⟩ ⟨rfl, by decide⟩ ⟨rfl, by decide⟩ ⟨rfl, by decide⟩
    ⟨⟨2024, 6, 1, 0, 0, 0, 0⟩, ⟨2024, 1, 1, 0, 0, 0, 0⟩, by decide,
      by decide, by decide⟩
    ⟨⟨2024, 6, 1, 0, 0, 0, 0⟩, ⟨2024, 1, 1, 0, 0, 0, 0⟩, by decide,
      by decide, by decide⟩

/-- C5: with a well-formed stored baseline, a well-formed fetched `all`
watermark that is strictly newer than the baseline's, the first pass
(active account, no forced reset) returns `success`; a second pass
fetching the same snapshot returns `not needed`, because the first pass
persisted the fetched snapshot as the new baseline. -/
theorem C5_reconcile_idempotent (st : SyncState) (B : Activities)
    (now1 now2 : Nat)
    (hbase : baselineWellFormed st.baseline = true)
    (hparse : parseJsDate (B.all.getD fallbackDate).data ≠ none)
    (hgate : actCmp B.all (cachedSnapOf st.baseline).all = true) :
    (fl_sync_activities false true now1 (FetchResult.ok B) st).outcome
      = Outcome.success
    ∧ (fl_sync_activities false true now2 (FetchResult.ok B)
        (fl_sync_activities false true now1 (FetchResult.ok B) st).state).outcome
      = Outcome.notNeeded := by
  have hrun1 := sync_run false true now1 (FetchResult.ok B) st (Or.inl rfl)
  have hb0 : baselineWellFormed (dailyPhase false now1 st).2.baseline = true := by
    rw [dailyPhase_baseline]; exact hbase
  have hg0 : actCmp B.all (cachedSnapOf (dailyPhase false now1 st).2.baseline).all
      = true := by
    rw [dailyPhase_baseline]; exact hgate
  rw [fetchPhase_gate_true hb0 hg0] at hrun1
  refine ⟨by rw [hrun1], ?_⟩
  rw [hrun1]
  dsimp only
  have hrun2 := sync_run false true now2 (FetchResult.ok B)
    { (dailyPhase false now1 st).2 with baseline := some (FLVal.snap B) }
    (Or.inl rfl)
  have hb1 : baselineWellFormed
      (dailyPhase false now2
        { (dailyPhase false now1 st).2 with
          baseline := some (FLVal.snap B) }).2.baseline = true := by
    rw [dailyPhase_baseline]; rfl
  have hg1 : actCmp B.all
      (cachedSnapOf (dailyPhase false now2
        { (dailyPhase false now1 st).2 with
          baseline := some (FLVal.snap B) }).2.baseline).all = false := by
    rw [dailyPhase_baseline]
    simpa [cachedSnapOf] using actCmp_self hparse
  rw [fetchPhase_gate_false hb1 hg1] at hrun2
  rw [hrun2]

/-- C5, witness. -/
theorem C5_reconcile_idempotent_witness :
    (fl_sync_activities false true 5 (FetchResult.ok snapJunWatched)
        ⟨some (FLVal.snap snapJan), 1000000⟩).outcome = Outcome.success
    ∧ (fl_sync_activities false true 6 (FetchResult.ok snapJunWatched)
        (fl_sync_activities false true 5 (FetchResult.ok snapJunWatched)
          ⟨some (FLVal.snap snapJan), 1000000⟩).state).outcome
      = Outcome.notNeeded :=
  C5_reconcile_idempotent ⟨some (FLVal.snap snapJan), 1000000⟩
    snapJunWatched 5 6 (by decide) (by decide) (by decide)

/-- C6: with no forced reset, when the stored next-daily-clear instant is
≤ now, the pass emits the daily-only invalidation exactly once and
advances the stored gate to exactly `now + 86400`, whatever the account
state, the fetch result and the later outcome; when the stored instant is
in the future, no daily invalidation is emitted and the gate is
unchanged. -/
theorem C6_daily_gate (userActive : Bool) (now : Nat) (fetch : FetchResult)
    (st : SyncState) :
    (st.nextDailyClear ≤ now →
      (fl_sync_activities false userActive now fetch st).effects.count
          Effect.clearDailyCache = 1
      ∧ (fl_sync_activities false userActive now fetch st).state.nextDailyClear
        = now + 86400)
    ∧ (now < st.nextDailyClear →
      (fl_sync_activities false userActive now fetch st).effects.count
          Effect.clearDailyCache = 0
      ∧ (fl_sync_activities false userActive now fetch st).state.nextDailyClear
        = st.nextDailyClear) := by
  have hcnt : ∀ st0, (fetchPhase fetch st0).effects.count
      Effect.clearDailyCache = 0 := fun st0 =>
    List.count_eq_zero.mpr (clearDaily_not_mem_fetchPhase fetch st0)
  have hnd : ∀ st0 : SyncState,
      (fetchPhase fetch st0).state.nextDailyClear = st0.nextDailyClear := by
    intro st0
    rw [fetchPhase_state]
  cases userActive
  · constructor
    · intro h
      rw [sync_noAccount, dailyPhase_due h]
      dsimp only
      refine ⟨by decide, by omega⟩
    · intro h
      rw [sync_noAccount, dailyPhase_not_due h]
      dsimp only
      exact ⟨by decide, rfl⟩
  · constructor
    · intro h
      rw [sync_run false true now fetch st (Or.inl rfl), dailyPhase_due h]
      dsimp only
      rw [List.count_append, hcnt, hnd]
      refine ⟨by decide, by dsimp only⟩
    · intro h
      rw [sync_run false true now fetch st (Or.inl rfl),
        dailyPhase_not_due h]
      dsimp only
      rw [List.count_append, hcnt, hnd]
      exact ⟨by decide, rfl⟩

/-- C6, witness. -/
theorem C6_daily_gate_witness :
    (fl_sync_activities false true 50 (FetchResult.ok snapJunWatched)
        ⟨some (FLVal.snap snapJan), 7⟩).effects.count
      Effect.clearDailyCache = 1
    ∧ (fl_sync_activities false true 50 (FetchResult.ok snapJunWatched)
        ⟨some (FLVal.snap snapJan), 7⟩).state.nextDailyClear = 50 + 86400 :=
  (C6_daily_gate true 50 (FetchResult.ok snapJunWatched)
    ⟨some (FLVal.snap snapJan), 7⟩).1 (by decide)

/-- C7: a forced reset always invalidates every partition first
(`invalidate_all` heads the effect trace), skips the daily-expiry branch
(no daily invalidation, gate unchanged), always performs the remote fetch
(never `no account`), and always persists whatever `fl_get_activity`
returned as the new baseline, regardless of the watermark comparison. -/
theorem C7_forced_reset (userActive : Bool) (now : Nat)
    (fetch : FetchResult) (st : SyncState) :
    (∃ tail, (fl_sync_activities true userActive now fetch st).effects
        = Effect.clearAllCache :: Effect.fetchActivity :: tail)
    ∧ Effect.clearDailyCache
        ∉ (fl_sync_activities true userActive now fetch st).effects
    ∧ (fl_sync_activities true userActive now fetch st).outcome
        ≠ Outcome.noAccount
    ∧ (fl_sync_activities true userActive now fetch st).state.baseline
        = some (fl_get_activity fetch)
    ∧ (fl_sync_activities true userActive now fetch st).state.nextDailyClear
        = st.nextDailyClear := by
  rw [sync_run true userActive now fetch st (Or.inr rfl), dailyPhase_forced]
  dsimp only
  refine ⟨?_, ?_, ?_, ?_, ?_⟩
  · rcases fetchPhase_effects fetch st with h | ⟨l, c, h⟩
    · exact ⟨[], by simp [h]⟩
    · exact ⟨categoryEffects l c, by simp [h]⟩
  · intro hmem
    rcases List.mem_append.mp hmem with h | h
    · simp at h
    · exact clearDaily_not_mem_fetchPhase fetch st h
  · exact (fetchPhase_outcome fetch st).1
  · rw [fetchPhase_state]
  · rw [fetchPhase_state]

/-- C3: the comparator parses both operands with the fixed format
`%Y-%m-%dT%H:%M:%S.%fZ`; if either operand fails to parse it returns
`true` (fail-open); when both parse it returns `true` exactly when the
fresh operand's epoch seconds strictly exceed the cached operand's, so
two operands with the same parse (in particular two equal timestamps) are
never considered newer. -/
theorem C3_timestamp_comparator (l c : List Char) :
    ((parseJsDate l = none ∨ parseJsDate c = none) → flCompare l c = true)
    ∧ (∀ a b, parseJsDate l = some a → parseJsDate c = some b →
        (flCompare l c = true ↔ epochSeconds a > epochSeconds b))
    ∧ (parseJsDate l = parseJsDate c → parseJsDate l ≠ none →
        flCompare l c = false) := by
  refine ⟨?_, ?_, ?_⟩
  · intro h
    cases hp : parseJsDate l with
    | none => simp [flCompare, tryCompare, hp]
    | some a =>
      rcases h with h | h
      · rw [hp] at h
        cases h
      · simp [flCompare, tryCompare, hp, h]
  · intro a b ha hb
    simp [flCompare, tryCompare, ha, hb]
  · intro heq hne
    cases hp : parseJsDate l with
    | none => exact absurd hp hne
    | some a =>
      have hc : parseJsDate c = some a := by rw [← heq, hp]
      simp [flCompare, tryCompare, hp, hc, lt_self_iff_false]

/-- C3, witness: the spec's example (a malformed fresh operand) and an
equal well-formed pair. -/
theorem C3_timestamp_comparator_witness :
    flCompare "garbage".data "2024-01-01T00:00:00.000Z".data = true
    ∧ flCompare "2024-01-01T00:00:00.000Z".data
        "2024-01-01T00:00:00.000Z".data = false :=
  ⟨(C3_timestamp_comparator "garbage".data
      "2024-01-01T00:00:00.000Z".data).1 (Or.inl (by decide)),
    (C3_timestamp_comparator "2024-01-01T00:00:00.000Z".data
      "2024-01-01T00:00:00.000Z".data).2.2 rfl (by decide)⟩

/-- C8, counterexample: a 429 response followed by a 200.  The claim says
the transport sleeps for the server-supplied delay and performs a single
retry; in the code `resp.raise_for_status()` raises on the 429 first, the
`except` branch returns `None`, and no sleep and no second request ever
happen. -/
theorem C8_counterexample :
    (call_flicklist [resp429, resp200]).requests = 1
    ∧ (call_flicklist [resp429, resp200]).sleepsMs = []
    ∧ (call_flicklist [resp429, resp200]).result = none :=
  ⟨by decide, by decide, by decide⟩

/-- C8 (amended): every `call_flicklist` invocation performs exactly one
HTTP request and never sleeps — the 401 and 429 branches are unreachable
because `raise_for_status` raises on every status ≥ 400 — and it returns
the response body exactly when the request raised no exception and the
status is below 400; in particular the call terminates on every response
sequence. -/
theorem C8_transport_single_request (r : HttpResponse)
    (rs : List HttpResponse) :
    (call_flicklist (r :: rs)).requests = 1
    ∧ (call_flicklist (r :: rs)).sleepsMs = []
    ∧ ((call_flicklist (r :: rs)).result = some r.body
        ↔ (r.networkError = false ∧ r.status < 400)) := by
  have hcons : call_flicklist (r :: rs) =
      if r.networkError ∨ 400 ≤ r.status then ⟨1, [], none⟩
      else if r.status = 401 then ⟨1, [], none⟩
      else if r.status = 429 then
        ⟨(call_flicklist rs).requests + 1,
          r.retryAfter * 1000 :: (call_flicklist rs).sleepsMs,
          (call_flicklist rs).result⟩
      else ⟨1, [], some r.body⟩ := rfl
  rw [hcons]
  split_ifs with h1 h2 h3
  · refine ⟨rfl, rfl, ?_⟩
    constructor
    · intro hr
      cases hr
    · rintro ⟨hn, hs⟩
      rcases h1 with h | h
      · rw [hn] at h
        cases h
      · omega
  · exfalso
    push_neg at h1
    omega
  · exfalso
    push_neg at h1
    omega
  · refine ⟨rfl, rfl, ?_⟩
    push_neg at h1
    simp
    exact ⟨by simpa using h1.1, by omega⟩

/-! ### Rounding lemmas for C9 -/

theorem pyRound_ge_floor (q : ℚ) : ⌊q⌋ ≤ pyRoundHalfEven q := by
  have hf : q.num / Int.ofNat q.den = ⌊q⌋ := by
    rw [Rat.floor_def]
    rfl
  simp only [pyRoundHalfEven]
  rw [hf]
  split_ifs <;> omega

theorem le_pyRound_of_le {z : ℤ} {q : ℚ} (h : (z : ℚ) ≤ q) :
    z ≤ pyRoundHalfEven q :=
  le_trans (Int.le_floor.mpr h) (pyRound_ge_floor q)

theorem divInt_scale10 (p : ℚ) :
    Rat.divInt (p.num * 10) (Int.ofNat p.den) = p * 10 := by
  rw [Rat.divInt_eq_div]
  push_cast [Int.ofNat_eq_coe]
  rw [mul_div_right_comm, Rat.num_div_den]

/-- An item progress strictly above 1 rounds to a stored value of at
least 1. -/
theorem round1_ge_one {p : ℚ} (h : 1 < p) : 1 ≤ round1 p := by
  have h10 : (10 : ℚ) ≤ p * 10 := by linarith
  have hz : (10 : ℤ) ≤ pyRoundHalfEven (p * 10) :=
    le_pyRound_of_le (by exact_mod_cast h10)
  unfold round1
  rw [divInt_scale10, Rat.divInt_eq_div]
  rw [le_div_iff₀ (by norm_num : (0 : ℚ) < (10 : ℤ))]
  have : ((10 : ℤ) : ℚ) ≤ (pyRoundHalfEven (p * 10) : ℚ) := by
    exact_mod_cast hz
  push_cast at this ⊢
  linarith

/-- C9, counterexample: a movie progress item at exactly 1.01 percent
passes the `progress > 1` filter, but the tuple stores
`round(1.01, 1) = 1.0`, which is not strictly greater than 1 — refuting
the claim that every inserted progress value strictly exceeds 1. -/
theorem C9_counterexample :
    fl_progress_movies_inserts noOracle [cexProgressItem] =
      [⟨"movie", 5, none, none, 1, 0, "2024-01-01T00:00:00.000Z", 9, "M"⟩]
    ∧ ¬ ((1 : ℚ) > 1) :=
  ⟨by decide, by decide⟩

/-- C9 (amended): every tuple bulk-inserted into the TV watched index has
a season strictly greater than 0; every tuple bulk-inserted into either
progress index arises from an item whose progress strictly exceeds 1 and
stores the one-decimal rounding of that progress, which is at least 1
(not necessarily strictly greater than 1, since rounding can map a value
just above 1 down to exactly 1); TV progress tuples additionally have a
season strictly greater than 0. -/
theorem C9_index_invariants (imdbM imdbT : String → Option Nat)
    (tvdbT : Nat → Option Nat) (items : List HistoryItem)
    (progress_info : List ProgressItem) :
    (∀ t ∈ fl_indicators_tv_inserts items,
      ∃ s, t.season = some s ∧ 0 < s)
    ∧ (∀ t ∈ fl_progress_movies_inserts imdbM progress_info,
        1 ≤ t.progress
        ∧ ∃ i ∈ progress_info, 1 < i.progress ∧ t.progress = round1 i.progress)
    ∧ (∀ t ∈ fl_progress_tv_inserts imdbT tvdbT progress_info,
        (∃ s, t.season = some s ∧ 0 < s)
        ∧ 1 ≤ t.progress
        ∧ ∃ i ∈ progress_info, 1 < i.progress
            ∧ t.progress = round1 i.progress) := by
  refine ⟨?_, ?_, ?_⟩
  · intro t ht
    rcases List.mem_filterMap.mp ht with ⟨item, _, hf⟩
    rcases hitem : item.tmdb_id with _ | tid
    · rw [hitem] at hf
      cases hf
    · rw [hitem] at hf
      dsimp only at hf
      by_cases h0 : tid = 0
      · rw [if_pos h0] at hf
        cases hf
      · rw [if_neg h0] at hf
        by_cases hs : item.season_number ≠ 0 ∧ 0 < item.season_number
        · rw [if_pos hs] at hf
          injection hf with h
          subst h
          exact ⟨item.season_number, rfl, hs.2⟩
        · rw [if_neg hs] at hf
          cases hf
  · intro t ht
    simp only [fl_progress_movies_inserts] at ht
    rcases List.mem_filterMap.mp ht with ⟨item, hmem, hf⟩
    rcases List.mem_filter.mp hmem with ⟨hmem2, hcond⟩
    have hprog : (1 : ℚ) < item.progress := by
      simp only [Bool.and_eq_true, decide_eq_true_eq] at hcond
      exact hcond.2
    rcases hmedia : item.media with ⟨title, ids⟩ | ⟨st2, ids, sn, num⟩
    · rw [hmedia] at hf
      dsimp only at hf
      rcases hid : get_fl_movie_id imdbM ids with _ | tid
      · rw [hid] at hf
        cases hf
      · rw [hid] at hf
        dsimp only at hf
        by_cases h0 : tid = 0
        · rw [if_pos h0] at hf
          cases hf
        · rw [if_neg h0] at hf
          injection hf with h
          subst h
          exact ⟨round1_ge_one hprog, item, hmem2, hprog, rfl⟩
    · rw [hmedia] at hf
      cases hf
  · intro t ht
    simp only [fl_progress_tv_inserts] at ht
    rcases List.mem_flatMap.mp ht with ⟨pair, _, hiner⟩
    rcases hp1 : pair.1 with _ | tid
    · rw [hp1] at hiner
      cases hiner
    · rw [hp1] at hiner
      dsimp only at hiner
      by_cases h0 : tid = 0
      · rw [if_pos h0] at hiner
        cases hiner
      · rw [if_neg h0] at hiner
        rcases List.mem_filterMap.mp hiner with ⟨pitem, hpmem, hf⟩
        rcases List.mem_filter.mp hpmem with ⟨hpmem2, hcond⟩
        have hprog : (1 : ℚ) < pitem.progress := by
          simp only [Bool.and_eq_true, decide_eq_true_eq] at hcond
          exact hcond.2
        rcases hmedia : pitem.media with ⟨title, ids⟩ | ⟨st2, ids, sn, num⟩
        · rw [hmedia] at hf
          cases hf
        · rw [hmedia] at hf
          dsimp only at hf
          by_cases hok : st2 = pair.2 ∧ 0 < sn
          · rw [if_pos hok] at hf
            injection hf with h
            subst h
            exact ⟨⟨sn, rfl, hok.2⟩, round1_ge_one hprog,
              pitem, hpmem2, hprog, rfl⟩
          · rw [if_neg hok] at hf
            cases hf

/-- C9, witness: a TV progress item at 1.5 percent with season 2 yields a
tuple with season 2 > 0 and stored progress 1.5 ≥ 1. -/
theorem C9_index_invariants_witness :
    (∃ s, (⟨"episode", 7, some 2, some 5, Rat.divInt 3 2, 0, "p", 1, "S"⟩
        : ProgressTuple).season = some s ∧ 0 < s)
    ∧ 1 ≤ (⟨"episode", 7, some 2, some 5, Rat.divInt 3 2, 0, "p", 1, "S"⟩
        : ProgressTuple).progress
    ∧ ∃ i ∈ [(⟨Rat.divInt 3 2, "p", 1,
          PMedia.episode "S" ⟨some 7, none, none⟩ 2 5⟩ : ProgressItem)],
        1 < i.progress
        ∧ (⟨"episode", 7, some 2, some 5, Rat.divInt 3 2, 0, "p", 1, "S"⟩
            : ProgressTuple).progress = round1 i.progress :=
  (C9_index_invariants noOracle noOracle noOracleT []
    [⟨Rat.divInt 3 2, "p", 1, PMedia.episode "S" ⟨some 7, none, none⟩ 2 5⟩]).2.2
    ⟨"episode", 7, some 2, some 5, Rat.divInt 3 2, 0, "p", 1, "S"⟩
    (by decide)

/-! ### Slug lemmas for C10 -/

theorem collapseDashes_cons (c : Char) (l : List Char) :
    collapseDashes (c :: l) = collapseStep c (collapseDashes l) := rfl

theorem mem_of_mem_collapseStep {c x : Char} {acc : List Char}
    (h : x ∈ collapseStep c acc) : x = c ∨ x ∈ acc := by
  unfold collapseStep at h
  split at h
  · exact Or.inr h
  · exact List.mem_cons.mp h

theorem mem_of_mem_collapseDashes {x : Char} {l : List Char}
    (h : x ∈ collapseDashes l) : x ∈ l := by
  induction l with
  | nil => simp [collapseDashes] at h
  | cons c rest ih =>
    rw [collapseDashes_cons] at h
    rcases mem_of_mem_collapseStep h with rfl | h
    · exact List.mem_cons_self _ _
    · exact List.mem_cons_of_mem _ (ih h)

theorem chain_noDD_collapseDashes (l : List Char) :
    List.Chain' noDD (collapseDashes l) := by
  induction l with
  | nil => simp [collapseDashes]
  | cons c rest ih =>
    rw [collapseDashes_cons]
    unfold collapseStep
    split
    · exact ih
    next hcond =>
      rw [List.chain'_cons']
      refine ⟨?_, ih⟩
      rintro y hy ⟨hc, hy'⟩
      subst hy'
      exact hcond ⟨hc, Option.mem_def.mp hy⟩

theorem collapseDashes_eq_self {l : List Char}
    (h : List.Chain' noDD l) : collapseDashes l = l := by
  induction l with
  | nil => rfl
  | cons c rest ih =>
    rw [List.chain'_cons'] at h
    obtain ⟨h1, h2⟩ := h
    rw [collapseDashes_cons, ih h2]
    unfold collapseStep
    split
    next hcond =>
      exact absurd ⟨hcond.1, rfl⟩ (h1 '-' (Option.mem_def.mpr hcond.2))
    · rfl

theorem slugOut_subNonSlug (c : Char) : slugOut (subNonSlug c) := by
  unfold subNonSlug
  split
  next h => exact Or.inl h
  · exact Or.inr rfl

theorem pyToLower_fixed {c : Char} (h : slugOut c) : pyToLower c = c := by
  rcases h with h | rfl
  · have hn : ¬ (65 ≤ c.toNat ∧ c.toNat ≤ 90) := by
      simp only [isSlugChar, decide_eq_true_eq] at h
      omega
    unfold pyToLower
    rw [if_neg hn]
  · decide

theorem subNonSlug_fixed {c : Char} (h : slugOut c) : subNonSlug c = c := by
  rcases h with h | rfl
  · unfold subNonSlug
    rw [if_pos h]
  · decide

theorem isPySpace_of_slugOut {c : Char} (h : slugOut c) :
    isPySpace c = false := by
  rcases h with h | rfl
  · simp only [isSlugChar, decide_eq_true_eq] at h
    simp only [isPySpace, decide_eq_false_iff_not]
    omega
  · decide

theorem dropWhile_eq_self {p : Char → Bool} {l : List Char}
    (h : ∀ c ∈ l, p c = false) : l.dropWhile p = l := by
  cases l with
  | nil => rfl
  | cons c rest =>
    rw [List.dropWhile_cons, h c (List.mem_cons_self _ _)]
    simp

theorem pyStrip_eq_self {l : List Char}
    (h : ∀ c ∈ l, isPySpace c = false) : pyStrip l = l := by
  unfold pyStrip
  rw [dropWhile_eq_self h,
    dropWhile_eq_self (fun c hc => h c (List.mem_reverse.mp hc)),
    List.reverse_reverse]

theorem map_eq_self_of {f : Char → Char} {l : List Char}
    (h : ∀ c ∈ l, f c = c) : l.map f = l := by
  induction l with
  | nil => rfl
  | cons c rest ih =>
    rw [List.map_cons, h c (List.mem_cons_self _ _),
      ih (fun d hd => h d (List.mem_cons_of_mem _ hd))]

theorem slugOut_of_mem_slug {s : List Char} {c : Char}
    (h : c ∈ make_fl_slug s) : slugOut c := by
  unfold make_fl_slug at h
  rcases List.mem_map.mp (mem_of_mem_collapseDashes h) with ⟨a, _, rfl⟩
  exact slugOut_subNonSlug a

/-- C10: every character of `make_fl_slug`'s output is a lowercase ASCII
letter, digit, underscore or hyphen; no two adjacent output characters
are both hyphens; and `make_fl_slug` is idempotent. -/
theorem C10_slug_properties (s : List Char) :
    (∀ c ∈ make_fl_slug s, slugOut c)
    ∧ List.Chain' noDD (make_fl_slug s)
    ∧ make_fl_slug (make_fl_slug s) = make_fl_slug s := by
  refine ⟨fun c hc => slugOut_of_mem_slug hc,
    chain_noDD_collapseDashes _, ?_⟩
  have hout : ∀ c ∈ make_fl_slug s, slugOut c :=
    fun c hc => slugOut_of_mem_slug hc
  have h1 : pyStrip (make_fl_slug s) = make_fl_slug s :=
    pyStrip_eq_self (fun c hc => isPySpace_of_slugOut (hout c hc))
  have h2 : (make_fl_slug s).map pyToLower = make_fl_slug s :=
    map_eq_self_of (fun c hc => pyToLower_fixed (hout c hc))
  have h3 : (make_fl_slug s).map subNonSlug = make_fl_slug s :=
    map_eq_self_of (fun c hc => subNonSlug_fixed (hout c hc))
  have h4 : collapseDashes (make_fl_slug s) = make_fl_slug s :=
    collapseDashes_eq_self (chain_noDD_collapseDashes _)
  calc make_fl_slug (make_fl_slug s)
      = collapseDashes
          (((pyStrip (make_fl_slug s)).map pyToLower).map subNonSlug) := rfl
    _ = collapseDashes
          (((make_fl_slug s).map pyToLower).map subNonSlug) := by rw [h1]
    _ = collapseDashes ((make_fl_slug s).map subNonSlug) := by rw [h2]
    _ = collapseDashes (make_fl_slug s) := by rw [h3]
    _ = make_fl_slug s := h4

/-- C10, witness. -/
theorem C10_slug_properties_witness :
    slugOut 'h'
    ∧ make_fl_slug (make_fl_slug "  Hello World!".data)
      = make_fl_slug "  Hello World!".data :=
  ⟨(C10_slug_properties "  Hello World!".data).1 'h' (by decide),
    (C10_slug_properties "  Hello World!".data).2.2⟩

end FL
